import Mathlib

set_option linter.unusedVariables false

/-!
Shallow embedding of the SlackCompose event router (Go source: service.go,
types.go, clients.go, config.go).  The four message handlers are modelled as
pure functions from a decoded inbound event to the pair of outbound queue
appends they perform (execution requests for Poppit, chat messages for
SlackLiner).  Decode failure of the raw JSON payload is modelled by an
`Option` input being `none`; the synchronous Slack message fetch of the
reaction path is modelled by an `Except` parameter carrying the result of
that call; a bus write (RPush) that fails is modelled by a boolean send
oracle, since a failed write appends nothing.
-/

namespace SlackCompose

/-- Model of a Go `interface\x7b\x7d` value carried in a JSON metadata map.  A Go
type assertion `v.(string)` succeeds exactly on the `str` constructor. -/
inductive JsonValue where
  | str (s : String)
  | num (n : Int)
  | boolean (b : Bool)
  | null
deriving DecidableEq, Repr

/-- A Go `map[string]interface\x7b\x7d`, modelled as an association list. -/
def MetaMap := List (String × JsonValue)
deriving DecidableEq, Repr

/-- Go map indexing `m[k]`: first matching key, `none` when absent. -/
def mapGet {α : Type} : List (String × α) → String → Option α
  | [], _ => none
  | (k, v) :: rest, key => if k = key then some v else mapGet rest key

/-- ProjectConfig (config.go): maps a project name to its working directory. -/
structure ProjectConfig where
  Name : String
  WorkingDir : String
deriving DecidableEq, Repr

/-- The behaviour-relevant part of Config (config.go): the project registry,
the default Slack channel, and the line limit for the logs command.  The
remaining fields (bus address, credentials, channel and list names) only tell
the plumbing where to connect and are not consulted by any handler logic. -/
structure Config where
  SlackChannel : String
  Projects : List (String × ProjectConfig)
  DockerLogsLineLimit : Int
deriving DecidableEq, Repr

/-- Emoji name constants (service.go). -/
def EmojiUpArrow : String := "arrow_up"

def EmojiDownArrow : String := "arrow_down"

def EmojiArrowsCounterClockwise : String := "arrows_counterclockwise"

def EmojiPageFacingUp : String := "page_facing_up"

/-- Block action id constants (service.go). -/
def ActionDockerUp : String := "docker_up"

def ActionDockerDown : String := "docker_down"

def ActionDockerRestart : String := "docker_restart"

def ActionDockerPS : String := "docker_ps"

def ActionDockerLogs : String := "docker_logs"

/-- Block Kit element id constants (service.go). -/
def BlockIDProjectBlock : String := "project_block"

def ActionIDSlackCompose : String := "SlackCompose"

/-- Git branch constant (service.go). -/
def DefaultGitBranch : String := "refs/heads/main"

/-- Default TTL in seconds for SlackLiner messages (service.go). -/
def DefaultTTLSeconds : Int := 86400

/-- emojiToCommand (service.go): supported emoji reactions and their base
docker compose commands. -/
def emojiToCommand : List (String × String) :=
  [(EmojiUpArrow, "docker compose up -d"),
   (EmojiDownArrow, "docker compose down"),
   (EmojiArrowsCounterClockwise, "docker compose restart"),
   (EmojiPageFacingUp, "docker compose logs")]

/-- actionIDToCommand (service.go): block action ids and their base docker
compose commands. -/
def actionIDToCommand : List (String × String) :=
  [(ActionDockerUp, "docker compose up -d"),
   (ActionDockerDown, "docker compose down"),
   (ActionDockerRestart, "docker compose restart"),
   (ActionDockerPS, "docker compose ps"),
   (ActionDockerLogs, "docker compose logs")]

/-- expandCommand (service.go): expands the logs command with the configured
line limit; every other command is returned unchanged. -/
def expandCommand (cfg : Config) (cmd : String) : String :=
  if cmd = "docker compose logs" then
    "docker compose logs -n " ++ toString cfg.DockerLogsLineLimit
  else cmd

/-- getCommandForEmoji (service.go): table lookup plus expansion; the Go
`(string, bool)` pair is modelled as an `Option`. -/
def getCommandForEmoji (cfg : Config) (emoji : String) : Option String :=
  (mapGet emojiToCommand emoji).map (expandCommand cfg)

/-- getCommandForActionID (service.go): table lookup plus expansion. -/
def getCommandForActionID (cfg : Config) (actionID : String) : Option String :=
  (mapGet actionIDToCommand actionID).map (expandCommand cfg)

/-- Whitespace predicate of Go strings.TrimSpace: the ASCII space characters
plus the two Latin-1 members of the Unicode White_Space class (NEL and NBSP).
White_Space code points above U+00A0 do not occur in the payloads modelled
here and are left out. -/
def goIsSpace (c : Char) : Bool :=
  c = ' ' || c = '\t' || c = '\n' || c = Char.ofNat 11 || c = Char.ofNat 12 ||
    c = '\r' || c = Char.ofNat 133 || c = Char.ofNat 160

/-- Go strings.TrimSpace: removes leading and trailing whitespace. -/
def trimSpace (s : String) : String :=
  ⟨((s.data.dropWhile goIsSpace).reverse.dropWhile goIsSpace).reverse⟩

/-- SlackMetadata (types.go): metadata attached to a Slack message. -/
structure SlackMetadata where
  EventType : String
  EventPayload : MetaMap
deriving DecidableEq, Repr

/-- SlackCommand (types.go): a slash command received from SlackCommandRelay. -/
structure SlackCommand where
  Command : String
  Text : String
  UserID : String := ""
  UserName : String := ""
  ChannelID : String
  ChannelName : String := ""
deriving DecidableEq, Repr

/-- SlackReactionItem (types.go): the message item that was reacted to.  The
Go field named Type is written lowercase because Lean reserves that word. -/
structure SlackReactionItem where
  type : String := ""
  Channel : String
  TS : String
deriving DecidableEq, Repr

/-- SlackReactionEvent (types.go): the reaction event details. -/
structure SlackReactionEvent where
  type : String := ""
  User : String := ""
  Reaction : String
  Item : SlackReactionItem
deriving DecidableEq, Repr

/-- SlackReaction (types.go): an emoji reaction event from SlackRelay. -/
structure SlackReaction where
  type : String := ""
  Event : SlackReactionEvent
deriving DecidableEq, Repr

/-- SlackMessage (types.go): a message retrieved from the Slack API. -/
structure SlackMessage where
  type : String := ""
  Text : String := ""
  Timestamp : String := ""
  Metadata : SlackMetadata
deriving DecidableEq, Repr

/-- PoppitCommandOutput (types.go): output from a Poppit command execution.
The Go metadata map can be nil, hence the `Option`. -/
structure PoppitCommandOutput where
  type : String
  Command : String
  Output : String
  Stderr : String := ""
  Metadata : Option MetaMap
deriving DecidableEq, Repr

/-- PoppitPayload (types.go): the execution request sent to Poppit. -/
structure PoppitPayload where
  Repo : String
  Branch : String
  type : String
  Dir : String
  Commands : List String
  Metadata : MetaMap
deriving DecidableEq, Repr

/-- BlockActionElement (types.go): one entry of the action list of a block
action event. -/
structure BlockActionElement where
  ActionID : String
  BlockID : String := ""
  type : String
  Value : String := ""
deriving DecidableEq, Repr

/-- BlockActionText (types.go). -/
structure BlockActionText where
  type : String := ""
  text : String := ""
  Emoji : Bool := false
deriving DecidableEq, Repr

/-- BlockActionOption (types.go): a selected option of a select menu. -/
structure BlockActionOption where
  Text : BlockActionText := {}
  Value : String
deriving DecidableEq, Repr

/-- BlockActionValue (types.go): a value of the form-input state.  The Go
SelectedOption pointer can be nil, hence the `Option`. -/
structure BlockActionValue where
  type : String := ""
  SelectedOption : Option BlockActionOption
deriving DecidableEq, Repr

/-- BlockActionState (types.go): the state of form inputs, a two-level map
keyed by block id and then action id. -/
structure BlockActionState where
  Values : List (String × List (String × BlockActionValue))
deriving DecidableEq, Repr

/-- BlockActionMessage (types.go). -/
structure BlockActionMessage where
  TS : String
deriving DecidableEq, Repr

/-- BlockActionChannel (types.go). -/
structure BlockActionChannel where
  ID : String
  Name : String := ""
deriving DecidableEq, Repr

/-- SlackBlockAction (types.go): a block action event from SlackRelay. -/
structure SlackBlockAction where
  type : String := ""
  Actions : List BlockActionElement
  State : BlockActionState
  Message : BlockActionMessage
  Channel : BlockActionChannel
deriving DecidableEq, Repr

/-- A Block Kit text object (slack-go): a type tag and the text. -/
structure TextObject where
  type : String
  text : String
deriving DecidableEq, Repr

/-- A Block Kit select-menu element (slack-go), as built by
sendBlockKitDialog with an external options source. -/
structure SelectMenu where
  optType : String
  placeholder : TextObject
  actionID : String
  minQueryLength : Option Int
deriving DecidableEq, Repr

/-- A Block Kit button element (slack-go); style is empty, primary or
danger. -/
structure ButtonElement where
  actionID : String
  value : String
  text : TextObject
  style : String := ""
deriving DecidableEq, Repr

/-- The Block Kit block shapes used by sendBlockKitDialog (slack-go). -/
inductive Block where
  | section (text : TextObject)
  | input (blockID : String) (label : TextObject) (element : SelectMenu)
  | divider
  | actions (blockID : String) (elements : List ButtonElement)
deriving DecidableEq, Repr

/-- SlackLinerPayload (types.go): the chat message request sent to
SlackLiner. -/
structure SlackLinerPayload where
  Channel : String
  Text : String := ""
  Blocks : Option (List Block) := none
  Metadata : SlackMetadata
  TTL : Int := 0
  ThreadTS : String := ""
deriving DecidableEq, Repr

/-- The appends a single handler invocation performs on the two outbound
Redis lists: execution requests (sendToPoppit, clients.go) and chat messages
(sendToSlackLiner, clients.go), in order. -/
structure Effects where
  poppit : List PoppitPayload := []
  slackLiner : List SlackLinerPayload := []
deriving DecidableEq, Repr

/-- No appends. -/
def Effects.empty : Effects := ⟨[], []⟩

/-- Concatenation of the appends of two processing steps, in order. -/
def Effects.append (a b : Effects) : Effects :=
  ⟨a.poppit ++ b.poppit, a.slackLiner ++ b.slackLiner⟩

/-- The Block Kit blocks built by sendBlockKitDialog (service.go): an
instruction section, an external-select input for the project, a divider,
and two labelled rows of action buttons. -/
def blockKitDialogBlocks : List Block :=
  [Block.section ⟨"mrkdwn",
      "Select a project from your GitHub repositories to manage its containers."⟩,
   Block.input BlockIDProjectBlock ⟨"plain_text", "Project / Repository"⟩
     ⟨"external_select", ⟨"plain_text", "Search projects..."⟩, ActionIDSlackCompose, some 0⟩,
   Block.divider,
   Block.section ⟨"mrkdwn", "*Lifecycle Actions*"⟩,
   Block.actions ""
     [⟨ActionDockerUp, "up", ⟨"plain_text", ":arrow_up: Up"⟩, "primary"⟩,
      ⟨ActionDockerRestart, "restart", ⟨"plain_text", ":arrows_counterclockwise: Restart"⟩, ""⟩,
      ⟨ActionDockerDown, "down", ⟨"plain_text", ":arrow_down: Down"⟩, "danger"⟩],
   Block.section ⟨"mrkdwn", "*Observation*"⟩,
   Block.actions ""
     [⟨ActionDockerPS, "ps", ⟨"plain_text", ":chart_with_upwards_trend: Process Status"⟩, ""⟩,
      ⟨ActionDockerLogs, "logs", ⟨"plain_text", ":page_facing_up: View Logs"⟩, ""⟩]]

/-- sendBlockKitDialog (service.go): one chat-output append holding the
dialog blocks, tagged slack-compose-dialog, addressed to the given channel.
A failed bus write (sendOk false) appends nothing. -/
def sendBlockKitDialog (sendOk : Bool) (channel : String) : Effects :=
  let payload : SlackLinerPayload :=
    { Channel := channel,
      Blocks := some blockKitDialogBlocks,
      TTL := DefaultTTLSeconds,
      Metadata := ⟨"slack-compose-dialog", []⟩ }
  if sendOk then ⟨[], [payload]⟩ else Effects.empty

/-- handleCommand (service.go): processes one slash command.  The decoded
event is `none` on JSON decode failure. -/
def handleCommand (cfg : Config) (sendOk : Bool) (input : Option SlackCommand) : Effects :=
  match input with
  | none => Effects.empty
  | some cmd =>
    if cmd.Command ≠ "/slack-compose" then Effects.empty
    else
      let projectName := trimSpace cmd.Text
      if projectName = "" then sendBlockKitDialog sendOk cmd.ChannelID
      else
        match mapGet cfg.Projects projectName with
        | none => sendBlockKitDialog sendOk cmd.ChannelID
        | some project =>
          let poppitPayload : PoppitPayload :=
            { Repo := projectName,
              Branch := DefaultGitBranch,
              type := "slack-compose",
              Dir := project.WorkingDir,
              Commands := ["docker compose ps"],
              Metadata := [("project", JsonValue.str projectName)] }
          if sendOk then ⟨[poppitPayload], []⟩ else Effects.empty

/-- The metadata string extraction pattern of handlePoppitOutput
(service.go): the value of the key when the map is non-nil, the key present
and its value a string; the empty string otherwise. -/
def metaString (m : Option MetaMap) (key : String) : String :=
  match m with
  | none => ""
  | some md =>
    match mapGet md key with
    | some (JsonValue.str s) => s
    | _ => ""

/-- The SlackLiner message built by handlePoppitOutput (service.go) for one
execution result: project, thread and channel ids are read back from the
echoed correlation metadata, the project key enters the event payload only
when a project name was found, and the destination falls back to the
configured default channel. -/
def poppitOutputPayload (cfg : Config) (cmdOutput : PoppitCommandOutput) : SlackLinerPayload :=
  let projectName := metaString cmdOutput.Metadata "project"
  let threadTS := metaString cmdOutput.Metadata "thread_ts"
  let channel := metaString cmdOutput.Metadata "channel"
  let eventPayload : MetaMap :=
    if projectName ≠ "" then
      [("command", JsonValue.str cmdOutput.Command),
       ("project", JsonValue.str projectName)]
    else [("command", JsonValue.str cmdOutput.Command)]
  let targetChannel := if channel ≠ "" then channel else cfg.SlackChannel
  { Channel := targetChannel,
    Text := "*Project:* " ++ projectName ++ "\n*Command:* `" ++ cmdOutput.Command
      ++ "`\n```\n" ++ cmdOutput.Output ++ "\n```",
    Metadata := ⟨"slack-compose", eventPayload⟩,
    TTL := DefaultTTLSeconds,
    ThreadTS := threadTS }

/-- handlePoppitOutput (service.go): processes one Poppit execution result
and forwards it to SlackLiner; the message built for the result is
poppitOutputPayload. -/
def handlePoppitOutput (cfg : Config) (sendOk : Bool)
    (input : Option PoppitCommandOutput) : Effects :=
  match input with
  | none => Effects.empty
  | some cmdOutput =>
    if cmdOutput.type ≠ "slack-compose" then Effects.empty
    else if sendOk then ⟨[], [poppitOutputPayload cfg cmdOutput]⟩ else Effects.empty

/-- listenForPoppitOutput (service.go): each bus message of the completion
channel is processed to completion, in order, by handlePoppitOutput; the
handler keeps no state between messages. -/
def runPoppitOutputs (cfg : Config) (sendOk : Bool)
    (msgs : List (Option PoppitCommandOutput)) : Effects :=
  msgs.foldl (fun eff m => eff.append (handlePoppitOutput cfg sendOk m)) Effects.empty

/-- handleReaction (service.go): processes one emoji reaction.  The result
of the synchronous GetMessage call (slack.go) is passed as `fetched`;
`Except.error` models a failed fetch. -/
def handleReaction (cfg : Config) (sendOk : Bool) (input : Option SlackReaction)
    (fetched : Except Unit SlackMessage) : Effects :=
  match input with
  | none => Effects.empty
  | some reaction =>
    match getCommandForEmoji cfg reaction.Event.Reaction with
    | none => Effects.empty
    | some command =>
      match fetched with
      | Except.error _ => Effects.empty
      | Except.ok message =>
        if message.Metadata.EventType ≠ "slack-compose" then Effects.empty
        else
          match mapGet message.Metadata.EventPayload "project" with
          | some (JsonValue.str projectName) =>
            if projectName = "" then Effects.empty
            else
              match mapGet cfg.Projects projectName with
              | none => Effects.empty
              | some project =>
                let poppitPayload : PoppitPayload :=
                  { Repo := projectName,
                    Branch := DefaultGitBranch,
                    type := "slack-compose",
                    Dir := project.WorkingDir,
                    Commands := [command],
                    Metadata :=
                      [("project", JsonValue.str projectName),
                       ("thread_ts", JsonValue.str reaction.Event.Item.TS),
                       ("channel", JsonValue.str reaction.Event.Item.Channel)] }
                if sendOk then ⟨[poppitPayload], []⟩ else Effects.empty
          | _ => Effects.empty

/-- The execution request built in the action loop of handleBlockAction
(service.go). -/
def blockActionPayload (projectName : String) (project : ProjectConfig)
    (command channel threadTS : String) : PoppitPayload :=
  { Repo := projectName,
    Branch := DefaultGitBranch,
    type := "slack-compose",
    Dir := project.WorkingDir,
    Commands := [command],
    Metadata :=
      [("project", JsonValue.str projectName),
       ("thread_ts", JsonValue.str threadTS),
       ("channel", JsonValue.str channel)] }

/-- The action loop of handleBlockAction (service.go): non-button entries
and unknown action ids are skipped; each remaining entry is one sendToPoppit
attempt, counted by `n`; a failed attempt (ok n false) appends nothing and
the loop continues with the next entry either way. -/
def processActions (cfg : Config) (projectName : String) (project : ProjectConfig)
    (channelID messageTS : String) (ok : Nat → Bool) :
    List BlockActionElement → Nat → List PoppitPayload
  | [], _ => []
  | act :: rest, n =>
    if act.type ≠ "button" then
      processActions cfg projectName project channelID messageTS ok rest n
    else
      match getCommandForActionID cfg act.ActionID with
      | none => processActions cfg projectName project channelID messageTS ok rest n
      | some command =>
        let channel := if channelID ≠ "" then channelID else ""
        let threadTS := if messageTS ≠ "" then messageTS else ""
        let payload := blockActionPayload projectName project command channel threadTS
        if ok n then
          payload :: processActions cfg projectName project channelID messageTS ok rest (n + 1)
        else
          processActions cfg projectName project channelID messageTS ok rest (n + 1)

/-- The project extraction of handleBlockAction (service.go): the selected
option value under the fixed block and action ids, or the empty string at any
missing level. -/
def selectedProject (action : SlackBlockAction) : String :=
  match mapGet action.State.Values BlockIDProjectBlock with
  | some state =>
    match mapGet state ActionIDSlackCompose with
    | some slackCompose =>
      match slackCompose.SelectedOption with
      | some opt => opt.Value
      | none => ""
    | none => ""
  | none => ""

/-- handleBlockAction (service.go): processes one block action event;
`ok` is the per-attempt outcome of the sendToPoppit bus writes. -/
def handleBlockAction (cfg : Config) (ok : Nat → Bool)
    (input : Option SlackBlockAction) : Effects :=
  match input with
  | none => Effects.empty
  | some action =>
    let projectName := selectedProject action
    if projectName = "" then Effects.empty
    else
      match mapGet cfg.Projects projectName with
      | none => Effects.empty
      | some project =>
        ⟨processActions cfg projectName project action.Channel.ID action.Message.TS
            ok action.Actions 0, []⟩

/-- Whether an optional metadata map is non-nil and holds the key. -/
def metaHasKey (m : Option MetaMap) (key : String) : Bool :=
  match m with
  | none => false
  | some md => (mapGet md key).isSome

/-- Specification helper: keeps the elements whose attempt index the oracle
accepts, counting attempts from `n`. -/
def pickOk {α : Type} (ok : Nat → Bool) : Nat → List α → List α
  | _, [] => []
  | n, x :: xs =>
    if ok n then x :: pickOk ok (n + 1) xs else pickOk ok (n + 1) xs

/-- Specification helper: the execution request a block-action entry gives
rise to, or `none` for a non-button entry or an unknown action id. -/
def keptPayload (cfg : Config) (projectName : String) (project : ProjectConfig)
    (channelID messageTS : String) (act : BlockActionElement) : Option PoppitPayload :=
  if act.type = "button" then
    (getCommandForActionID cfg act.ActionID).map
      (fun c => blockActionPayload projectName project c channelID messageTS)
  else none

/-- The shape shared by every execution request the three dispatch paths
append: main branch, the slack-compose request kind, a single command, the
working directory of a registered project, and that registered name under
the project key of the correlation metadata. -/
def PoppitInvariant (cfg : Config) (p : PoppitPayload) : Prop :=
  p.Branch = "refs/heads/main" ∧ p.type = "slack-compose" ∧ p.Commands.length = 1 ∧
    ∃ name project, mapGet cfg.Projects name = some project ∧
      p.Dir = project.WorkingDir ∧
      mapGet p.Metadata "project" = some (JsonValue.str name)

/-- Fixture: a registry with one project. -/
def projW : ProjectConfig := ⟨"my-project", "/srv/my-project"⟩

/-- Fixture: a configuration holding only `my-project`. -/
def cfgW : Config := ⟨"#slack-compose", [("my-project", projW)], 50⟩

/-- Fixture: an arrow-up reaction on a message in channel C042. -/
def reactionW : SlackReaction :=
  ⟨"", ⟨"", "", "arrow_up", ⟨"", "C042", "1700000000.000100"⟩⟩⟩

/-- Fixture: a fetched message tagged slack-compose for `my-project`. -/
def messageW : SlackMessage :=
  ⟨"", "", "", ⟨"slack-compose", [("project", JsonValue.str "my-project")]⟩⟩

/-- Fixture: a fetched message tagged with a foreign event type. -/
def messageOtherW : SlackMessage :=
  ⟨"", "", "", ⟨"deploy-bot", [("project", JsonValue.str "my-project")]⟩⟩

/-- Fixture: a fetched message whose project value is not a string. -/
def messageNumW : SlackMessage :=
  ⟨"", "", "", ⟨"slack-compose", [("project", JsonValue.num 7)]⟩⟩

/-- Fixture: a slash command naming `my-project` with surrounding blanks. -/
def cmdKnownW : SlackCommand := ⟨"/slack-compose", "  my-project  ", "", "", "C042", ""⟩

/-- Fixture: a slash command naming an unregistered project. -/
def cmdUnknownW : SlackCommand := ⟨"/slack-compose", "nonexistent-project", "", "", "C042", ""⟩

/-- Fixture: an execution result with full correlation metadata. -/
def outW : PoppitCommandOutput :=
  ⟨"slack-compose", "docker compose ps", "NAME  STATUS", "",
    some [("project", JsonValue.str "my-project"),
          ("thread_ts", JsonValue.str "1700000000.000100"),
          ("channel", JsonValue.str "C042")]⟩

/-- Fixture: an execution result whose metadata lacks the project key. -/
def outNoProjW : PoppitCommandOutput :=
  ⟨"slack-compose", "docker compose ps", "NAME  STATUS", "",
    some [("thread_ts", JsonValue.str "1700000000.000100"),
          ("channel", JsonValue.str "C042")]⟩

/-- Fixture: metadata whose project value is not a string. -/
def mdNumProjW : MetaMap := [("project", JsonValue.num 7)]

/-- Fixture: an execution result whose project value is not a string. -/
def outNumProjW : PoppitCommandOutput :=
  ⟨"slack-compose", "docker compose ps", "NAME  STATUS", "", some mdNumProjW⟩

/-- Fixture: a block action with one known and one unknown action id and
`my-project` selected. -/
def actionW : SlackBlockAction :=
  ⟨"", [⟨"docker_up", "", "button", "up"⟩, ⟨"unknown_action", "", "button", "x"⟩],
    ⟨[("project_block", [("SlackCompose", ⟨"external_select", some ⟨{}, "my-project"⟩⟩)])]⟩,
    ⟨"1700000000.000100"⟩, ⟨"C042", "general"⟩⟩

/-- Fixture: a project registered under the empty name. -/
def projE : ProjectConfig := ⟨"", "/srv/unnamed"⟩

/-- Fixture: a configuration whose registry holds the empty name. -/
def cfgE : Config := ⟨"#slack-compose", [("", projE)], 50⟩

/-- Fixture: a slash command whose text is all whitespace; its trimmed text
is the empty string, which the cfgE registry does hold. -/
def cmdE : SlackCommand := ⟨"/slack-compose", "   ", "", "", "C042", ""⟩

/-- Fixture: a block action with a known button whose selected option value
is the empty string, which the cfgE registry does hold. -/
def actionE : SlackBlockAction :=
  ⟨"", [⟨"docker_up", "", "button", "up"⟩],
    ⟨[("project_block", [("SlackCompose", ⟨"external_select", some ⟨{}, ""⟩⟩)])]⟩,
    ⟨"1.0"⟩, ⟨"C042", ""⟩⟩

lemma metaString_eq_empty {m : Option MetaMap} {key : String}
    (h : metaHasKey m key = false) : metaString m key = "" := by
  cases m with
  | none => rfl
  | some md =>
    cases hq : mapGet md key with
    | none => simp [metaString, hq]
    | some v => simp [metaHasKey, hq] at h

lemma metaString_nonstring {md : MetaMap} {key : String} {v : JsonValue}
    (hget : mapGet md key = some v)
    (hv : (∀ s, v ≠ JsonValue.str s) ∨ v = JsonValue.str "") :
    metaString (some md) key = "" := by
  rcases hv with hns | hemp
  · cases v with
    | str s => exact absurd rfl (hns s)
    | num n => simp [metaString, hget]
    | boolean b => simp [metaString, hget]
    | null => simp [metaString, hget]
  · subst hemp
    simp [metaString, hget]

lemma pickOk_true {α : Type} (n : Nat) (l : List α) :
    pickOk (fun _ => true) n l = l := by
  induction l generalizing n with
  | nil => simp [pickOk]
  | cons a rest ih => simp [pickOk, ih]

lemma processActions_eq (cfg : Config) (pn : String) (pr : ProjectConfig)
    (chID msgTS : String) (ok : Nat → Bool) (acts : List BlockActionElement) (n : Nat) :
    processActions cfg pn pr chID msgTS ok acts n =
      pickOk ok n (acts.filterMap (keptPayload cfg pn pr chID msgTS)) := by
  have hch : (if chID ≠ "" then chID else "") = chID := by
    by_cases h : chID = "" <;> simp [h]
  have hts : (if msgTS ≠ "" then msgTS else "") = msgTS := by
    by_cases h : msgTS = "" <;> simp [h]
  induction acts generalizing n with
  | nil => simp [processActions, pickOk]
  | cons a rest ih =>
    by_cases hb : a.type = "button"
    · cases hq : getCommandForActionID cfg a.ActionID with
      | none => simp [processActions, hb, hq, keptPayload, ih]
      | some c =>
        simp [processActions, hb, hq, keptPayload, hch, hts, pickOk, ih]
    · simp [processActions, hb, keptPayload, ih]

lemma mem_processActions {cfg : Config} {pn : String} {pr : ProjectConfig}
    {chID msgTS : String} {ok : Nat → Bool} :
    ∀ {acts : List BlockActionElement} {n : Nat} {p : PoppitPayload},
      p ∈ processActions cfg pn pr chID msgTS ok acts n →
      ∃ c, p = blockActionPayload pn pr c (if chID ≠ "" then chID else "")
        (if msgTS ≠ "" then msgTS else "") := by
  intro acts
  induction acts with
  | nil => intro n p hp; simp [processActions] at hp
  | cons a rest ih =>
    intro n p hp
    by_cases hb : a.type = "button"
    · cases hq : getCommandForActionID cfg a.ActionID with
      | none =>
        rw [processActions, if_neg (by simp [hb]), hq] at hp
        exact ih hp
      | some c =>
        rw [processActions, if_neg (by simp [hb]), hq] at hp
        by_cases hok : ok n
        · simp only [hok, if_pos] at hp
          rcases List.mem_cons.mp hp with h | h
          · exact ⟨c, h⟩
          · exact ih h
        · simp only [hok, Bool.false_eq_true, if_neg] at hp
          exact ih hp
    · rw [processActions, if_pos (by simp [hb])] at hp
      exact ih hp

/-- C8: the command expansion is a pure function of the action and the
configuration: each of the four recognized emoji names yields its documented
command string, the logs action expands to the logs command with the
configured line limit as its only configuration-dependent part, and every
interactive action identifier with a semantically equivalent emoji (up, down,
restart, logs) yields the same command as that emoji. -/
theorem C8_expander_table (cfg : Config) :
    getCommandForEmoji cfg EmojiUpArrow = some "docker compose up -d" ∧
    getCommandForEmoji cfg EmojiDownArrow = some "docker compose down" ∧
    getCommandForEmoji cfg EmojiArrowsCounterClockwise = some "docker compose restart" ∧
    getCommandForEmoji cfg EmojiPageFacingUp =
      some ("docker compose logs -n " ++ toString cfg.DockerLogsLineLimit) ∧
    getCommandForActionID cfg ActionDockerUp = getCommandForEmoji cfg EmojiUpArrow ∧
    getCommandForActionID cfg ActionDockerDown = getCommandForEmoji cfg EmojiDownArrow ∧
    getCommandForActionID cfg ActionDockerRestart =
      getCommandForEmoji cfg EmojiArrowsCounterClockwise ∧
    getCommandForActionID cfg ActionDockerLogs = getCommandForEmoji cfg EmojiPageFacingUp := by
  refine ⟨?_, ?_, ?_, ?_, ?_, ?_, ?_, ?_⟩ <;>
    simp [getCommandForEmoji, getCommandForActionID, emojiToCommand, actionIDToCommand,
      mapGet, expandCommand, EmojiUpArrow, EmojiDownArrow, EmojiArrowsCounterClockwise,
      EmojiPageFacingUp, ActionDockerUp, ActionDockerDown, ActionDockerRestart,
      ActionDockerPS, ActionDockerLogs]

/-- C8 witness: the table equations at the cfgW fixture. -/
theorem C8_expander_table_witness :
    getCommandForEmoji cfgW EmojiUpArrow = some "docker compose up -d" ∧
    getCommandForEmoji cfgW EmojiDownArrow = some "docker compose down" ∧
    getCommandForEmoji cfgW EmojiArrowsCounterClockwise = some "docker compose restart" ∧
    getCommandForEmoji cfgW EmojiPageFacingUp =
      some ("docker compose logs -n " ++ toString cfgW.DockerLogsLineLimit) ∧
    getCommandForActionID cfgW ActionDockerUp = getCommandForEmoji cfgW EmojiUpArrow ∧
    getCommandForActionID cfgW ActionDockerDown = getCommandForEmoji cfgW EmojiDownArrow ∧
    getCommandForActionID cfgW ActionDockerRestart =
      getCommandForEmoji cfgW EmojiArrowsCounterClockwise ∧
    getCommandForActionID cfgW ActionDockerLogs = getCommandForEmoji cfgW EmojiPageFacingUp :=
  C8_expander_table cfgW

/-- C6: a recognized emoji reaction whose fetched message carries an event
type different from slack-compose makes zero appends to either outbound
queue. -/
theorem C6_reaction_foreign_event_aborts (cfg : Config) (sendOk : Bool)
    (reaction : SlackReaction) (message : SlackMessage) (baseCmd : String)
    (hemoji : mapGet emojiToCommand reaction.Event.Reaction = some baseCmd)
    (htype : message.Metadata.EventType ≠ "slack-compose") :
    handleReaction cfg sendOk (some reaction) (Except.ok message) = Effects.empty := by
  simp [handleReaction, getCommandForEmoji, hemoji, htype]

/-- C6 witness: the arrow-up reaction on a message tagged deploy-bot. -/
theorem C6_reaction_foreign_event_aborts_witness :
    handleReaction cfgW true (some reactionW) (Except.ok messageOtherW) = Effects.empty :=
  C6_reaction_foreign_event_aborts cfgW true reactionW messageOtherW
    "docker compose up -d" (by decide) (by decide)

/-- C7: one chat-output append per execution result, no deduplication and no
state between events: the handler appends exactly one message for a matching
result, and processing the same decodable event twice in sequence appends
the same message twice. -/
theorem C7_no_dedup (cfg : Config) (out : PoppitCommandOutput)
    (htype : out.type = "slack-compose") :
    handlePoppitOutput cfg true (some out) = ⟨[], [poppitOutputPayload cfg out]⟩ ∧
    runPoppitOutputs cfg true [some out, some out] =
      ⟨[], [poppitOutputPayload cfg out, poppitOutputPayload cfg out]⟩ := by
  constructor
  · simp [handlePoppitOutput, htype]
  · simp [runPoppitOutputs, handlePoppitOutput, htype, Effects.append, Effects.empty]

/-- C7 witness: the duplicated execution result outW. -/
theorem C7_no_dedup_witness :
    handlePoppitOutput cfgW true (some outW) = ⟨[], [poppitOutputPayload cfgW outW]⟩ ∧
    runPoppitOutputs cfgW true [some outW, some outW] =
      ⟨[], [poppitOutputPayload cfgW outW, poppitOutputPayload cfgW outW]⟩ :=
  C7_no_dedup cfgW outW rfl

/-- C5: a slash command with the trigger string whose trimmed text is empty
or not registered appends exactly one chat-output message, the selection
dialog tagged slack-compose-dialog addressed to the originating channel, and
zero execution requests. -/
theorem C5_command_fallback_dialog (cfg : Config) (cmd : SlackCommand)
    (hcmd : cmd.Command = "/slack-compose")
    (hfall : trimSpace cmd.Text = "" ∨ mapGet cfg.Projects (trimSpace cmd.Text) = none) :
    handleCommand cfg true (some cmd) =
      ⟨[], [{ Channel := cmd.ChannelID, Blocks := some blockKitDialogBlocks,
              TTL := DefaultTTLSeconds, Metadata := ⟨"slack-compose-dialog", []⟩ }]⟩ := by
  rcases hfall with h | h
  · simp [handleCommand, hcmd, h, sendBlockKitDialog]
  · by_cases he : trimSpace cmd.Text = ""
    · simp [handleCommand, hcmd, he, sendBlockKitDialog]
    · simp [handleCommand, hcmd, he, h, sendBlockKitDialog]

/-- C5 witness: the slash command naming an unregistered project. -/
theorem C5_command_fallback_dialog_witness :
    handleCommand cfgW true (some cmdUnknownW) =
      ⟨[], [{ Channel := "C042", Blocks := some blockKitDialogBlocks,
              TTL := DefaultTTLSeconds, Metadata := ⟨"slack-compose-dialog", []⟩ }]⟩ :=
  C5_command_fallback_dialog cfgW cmdUnknownW rfl (Or.inr (by decide))

/-- C1: a recognized emoji reaction whose message fetch succeeds with event
type slack-compose and whose event payload holds a non-empty registered
project string makes exactly one execution-request append, whose single
command is the expanded form of the command mapped to the emoji and whose
correlation metadata holds exactly the project, the reacted message
timestamp under thread_ts, and the reacted message channel. -/
theorem C1_reaction_dispatch (cfg : Config) (reaction : SlackReaction)
    (message : SlackMessage) (baseCmd projectName : String) (project : ProjectConfig)
    (hemoji : mapGet emojiToCommand reaction.Event.Reaction = some baseCmd)
    (htype : message.Metadata.EventType = "slack-compose")
    (hproj : mapGet message.Metadata.EventPayload "project" = some (JsonValue.str projectName))
    (hne : projectName ≠ "")
    (hreg : mapGet cfg.Projects projectName = some project) :
    handleReaction cfg true (some reaction) (Except.ok message) =
      ⟨[{ Repo := projectName,
          Branch := DefaultGitBranch,
          type := "slack-compose",
          Dir := project.WorkingDir,
          Commands := [expandCommand cfg baseCmd],
          Metadata := [("project", JsonValue.str projectName),
                       ("thread_ts", JsonValue.str reaction.Event.Item.TS),
                       ("channel", JsonValue.str reaction.Event.Item.Channel)] }], []⟩ := by
  simp [handleReaction, getCommandForEmoji, hemoji, htype, hproj, hne, hreg]

/-- C1 witness: the arrow-up reaction on the slack-compose message of
my-project. -/
theorem C1_reaction_dispatch_witness :
    handleReaction cfgW true (some reactionW) (Except.ok messageW) =
      ⟨[{ Repo := "my-project",
          Branch := DefaultGitBranch,
          type := "slack-compose",
          Dir := "/srv/my-project",
          Commands := [expandCommand cfgW "docker compose up -d"],
          Metadata := [("project", JsonValue.str "my-project"),
                       ("thread_ts", JsonValue.str "1700000000.000100"),
                       ("channel", JsonValue.str "C042")] }], []⟩ :=
  C1_reaction_dispatch cfgW reactionW messageW "docker compose up -d" "my-project" projW
    (by decide) rfl (by decide) (by decide) (by decide)

/-- C2 counterexample: the registry may hold the empty project name; a slash
command whose trimmed text is that registered name yields zero
execution-request appends and one chat-output append (the dialog), so the
claim fails at this input. -/
theorem C2_counterexample :
    trimSpace cmdE.Text = "" ∧
    mapGet cfgE.Projects (trimSpace cmdE.Text) = some projE ∧
    (handleCommand cfgE true (some cmdE)).poppit = [] ∧
    (handleCommand cfgE true (some cmdE)).slackLiner.length = 1 := by decide

/-- C2 amended: a slash command with the trigger string whose trimmed text
is non-empty and registered appends exactly one execution request carrying
that project name in its correlation metadata, the registered working
directory, and the single command docker compose ps, and appends nothing to
the chat-output queue. -/
theorem C2_command_dispatch (cfg : Config) (cmd : SlackCommand)
    (projectName : String) (project : ProjectConfig)
    (hcmd : cmd.Command = "/slack-compose")
    (htrim : trimSpace cmd.Text = projectName)
    (hne : projectName ≠ "")
    (hreg : mapGet cfg.Projects projectName = some project) :
    handleCommand cfg true (some cmd) =
      ⟨[{ Repo := projectName,
          Branch := DefaultGitBranch,
          type := "slack-compose",
          Dir := project.WorkingDir,
          Commands := ["docker compose ps"],
          Metadata := [("project", JsonValue.str projectName)] }], []⟩ := by
  simp [handleCommand, hcmd, htrim, hne, hreg]

/-- C2 witness: the whitespace-wrapped my-project slash command. -/
theorem C2_command_dispatch_witness :
    handleCommand cfgW true (some cmdKnownW) =
      ⟨[{ Repo := "my-project",
          Branch := DefaultGitBranch,
          type := "slack-compose",
          Dir := "/srv/my-project",
          Commands := ["docker compose ps"],
          Metadata := [("project", JsonValue.str "my-project")] }], []⟩ :=
  C2_command_dispatch cfgW cmdKnownW "my-project" projW rfl (by decide) (by decide) (by decide)

/-- C3 counterexample: the registry may hold the empty project name; a block
action whose selected option value is that registered name and whose action
list holds one known button action yields zero appends, so the claim fails
at this input. -/
theorem C3_counterexample :
    selectedProject actionE = "" ∧
    mapGet cfgE.Projects (selectedProject actionE) = some projE ∧
    actionE.Actions = [⟨"docker_up", "", "button", "up"⟩] ∧
    handleBlockAction cfgE (fun _ => true) (some actionE) = Effects.empty := by decide

/-- C3 amended: for a block action whose selected project is non-empty and
registered, the handler walks the action list skipping non-button entries
and unknown action ids, and appends one execution request per remaining
entry whose bus write succeeds, with metadata naming the project, the
message timestamp and the channel id; a skipped or failed entry leaves the
processing of later entries untouched, and with every write succeeding the
appends are exactly one per remaining entry. -/
theorem C3_block_action_dispatch (cfg : Config) (ok : Nat → Bool)
    (action : SlackBlockAction) (projectName : String) (project : ProjectConfig)
    (hsel : selectedProject action = projectName)
    (hne : projectName ≠ "")
    (hreg : mapGet cfg.Projects projectName = some project) :
    (handleBlockAction cfg ok (some action)).slackLiner = [] ∧
    (handleBlockAction cfg ok (some action)).poppit =
      pickOk ok 0 (action.Actions.filterMap
        (keptPayload cfg projectName project action.Channel.ID action.Message.TS)) ∧
    (handleBlockAction cfg (fun _ => true) (some action)).poppit =
      action.Actions.filterMap
        (keptPayload cfg projectName project action.Channel.ID action.Message.TS) := by
  refine ⟨?_, ?_, ?_⟩ <;>
    simp [handleBlockAction, hsel, hne, hreg, processActions_eq, pickOk_true]

/-- C3 witness: the batched block action with one known and one unknown
action id selecting my-project. -/
theorem C3_block_action_dispatch_witness :
    (handleBlockAction cfgW (fun _ => true) (some actionW)).slackLiner = [] ∧
    (handleBlockAction cfgW (fun _ => true) (some actionW)).poppit =
      pickOk (fun _ => true) 0 (actionW.Actions.filterMap
        (keptPayload cfgW "my-project" projW actionW.Channel.ID actionW.Message.TS)) ∧
    (handleBlockAction cfgW (fun _ => true) (some actionW)).poppit =
      actionW.Actions.filterMap
        (keptPayload cfgW "my-project" projW actionW.Channel.ID actionW.Message.TS) :=
  C3_block_action_dispatch cfgW (fun _ => true) actionW "my-project" projW
    (by decide) (by decide) (by decide)

/-- C4: an execution result of the matching kind whose metadata lacks the
project key is still forwarded: zero execution-request appends, exactly one
chat-output append tagged slack-compose whose event payload has no project
key, addressed to the metadata channel when that is a non-empty string and
to the configured default channel otherwise, with thread_ts taken from the
metadata. -/
theorem C4_output_without_project (cfg : Config) (out : PoppitCommandOutput)
    (htype : out.type = "slack-compose")
    (hnoproj : metaHasKey out.Metadata "project" = false) :
    (handlePoppitOutput cfg true (some out)).poppit = [] ∧
    (handlePoppitOutput cfg true (some out)).slackLiner = [poppitOutputPayload cfg out] ∧
    (poppitOutputPayload cfg out).Metadata.EventType = "slack-compose" ∧
    mapGet (poppitOutputPayload cfg out).Metadata.EventPayload "project" = none ∧
    (poppitOutputPayload cfg out).Channel =
      (if metaString out.Metadata "channel" ≠ "" then metaString out.Metadata "channel"
       else cfg.SlackChannel) ∧
    (poppitOutputPayload cfg out).ThreadTS = metaString out.Metadata "thread_ts" := by
  have hp : metaString out.Metadata "project" = "" := metaString_eq_empty hnoproj
  refine ⟨?_, ?_, ?_, ?_, ?_, ?_⟩ <;>
    simp [handlePoppitOutput, htype, poppitOutputPayload, hp, mapGet]

/-- C4 witness: the execution result whose metadata lacks the project key. -/
theorem C4_output_without_project_witness :
    (handlePoppitOutput cfgW true (some outNoProjW)).poppit = [] ∧
    (handlePoppitOutput cfgW true (some outNoProjW)).slackLiner =
      [poppitOutputPayload cfgW outNoProjW] ∧
    (poppitOutputPayload cfgW outNoProjW).Metadata.EventType = "slack-compose" ∧
    mapGet (poppitOutputPayload cfgW outNoProjW).Metadata.EventPayload "project" = none ∧
    (poppitOutputPayload cfgW outNoProjW).Channel =
      (if metaString outNoProjW.Metadata "channel" ≠ "" then
        metaString outNoProjW.Metadata "channel"
       else cfgW.SlackChannel) ∧
    (poppitOutputPayload cfgW outNoProjW).ThreadTS =
      metaString outNoProjW.Metadata "thread_ts" :=
  C4_output_without_project cfgW outNoProjW rfl (by decide)

/-- C9: every execution request appended by the slash-command, reaction and
block-action paths has the main branch ref, the slack-compose request kind,
exactly one command, the working directory of a registered project, and that
registered name under the project key of its correlation metadata. -/
theorem C9_dispatch_invariant (cfg : Config) (sendOk : Bool)
    (cmdIn : Option SlackCommand) (rIn : Option SlackReaction)
    (fetched : Except Unit SlackMessage) (ok : Nat → Bool)
    (aIn : Option SlackBlockAction) :
    (∀ p ∈ (handleCommand cfg sendOk cmdIn).poppit, PoppitInvariant cfg p) ∧
    (∀ p ∈ (handleReaction cfg sendOk rIn fetched).poppit, PoppitInvariant cfg p) ∧
    (∀ p ∈ (handleBlockAction cfg ok aIn).poppit, PoppitInvariant cfg p) := by
  refine ⟨?_, ?_, ?_⟩
  · intro p hp
    cases cmdIn with
    | none => simp [handleCommand, Effects.empty] at hp
    | some cmd =>
      by_cases hc : cmd.Command = "/slack-compose"
      · by_cases he : trimSpace cmd.Text = ""
        · cases sendOk <;>
            simp [handleCommand, hc, he, sendBlockKitDialog, Effects.empty] at hp
        · cases hreg : mapGet cfg.Projects (trimSpace cmd.Text) with
          | none =>
            cases sendOk <;>
              simp [handleCommand, hc, he, hreg, sendBlockKitDialog, Effects.empty] at hp
          | some project =>
            cases sendOk with
            | false => simp [handleCommand, hc, he, hreg, Effects.empty] at hp
            | true =>
              simp [handleCommand, hc, he, hreg] at hp
              subst hp
              exact ⟨rfl, rfl, rfl, trimSpace cmd.Text, project, hreg, rfl, by simp [mapGet]⟩
      · simp [handleCommand, hc, Effects.empty] at hp
  · intro p hp
    cases rIn with
    | none => simp [handleReaction, Effects.empty] at hp
    | some reaction =>
      cases hemoji : mapGet emojiToCommand reaction.Event.Reaction with
      | none => simp [handleReaction, getCommandForEmoji, hemoji, Effects.empty] at hp
      | some baseCmd =>
        cases fetched with
        | error e => simp [handleReaction, getCommandForEmoji, hemoji, Effects.empty] at hp
        | ok message =>
          by_cases htype : message.Metadata.EventType = "slack-compose"
          · cases hproj : mapGet message.Metadata.EventPayload "project" with
            | none =>
              simp [handleReaction, getCommandForEmoji, hemoji, htype, hproj,
                Effects.empty] at hp
            | some v =>
              cases v with
              | str s =>
                by_cases hs : s = ""
                · simp [handleReaction, getCommandForEmoji, hemoji, htype, hproj, hs,
                    Effects.empty] at hp
                · cases hreg : mapGet cfg.Projects s with
                  | none =>
                    simp [handleReaction, getCommandForEmoji, hemoji, htype, hproj, hs,
                      hreg, Effects.empty] at hp
                  | some project =>
                    cases sendOk with
                    | false =>
                      simp [handleReaction, getCommandForEmoji, hemoji, htype, hproj, hs,
                        hreg, Effects.empty] at hp
                    | true =>
                      simp [handleReaction, getCommandForEmoji, hemoji, htype, hproj, hs,
                        hreg] at hp
                      subst hp
                      exact ⟨rfl, rfl, rfl, s, project, hreg, rfl, by simp [mapGet]⟩
              | num n =>
                simp [handleReaction, getCommandForEmoji, hemoji, htype, hproj,
                  Effects.empty] at hp
              | boolean b =>
                simp [handleReaction, getCommandForEmoji, hemoji, htype, hproj,
                  Effects.empty] at hp
              | null =>
                simp [handleReaction, getCommandForEmoji, hemoji, htype, hproj,
                  Effects.empty] at hp
          · simp [handleReaction, getCommandForEmoji, hemoji, htype, Effects.empty] at hp
  · intro p hp
    cases aIn with
    | none => simp [handleBlockAction, Effects.empty] at hp
    | some action =>
      by_cases hsel : selectedProject action = ""
      · simp [handleBlockAction, hsel, Effects.empty] at hp
      · cases hreg : mapGet cfg.Projects (selectedProject action) with
        | none => simp [handleBlockAction, hsel, hreg, Effects.empty] at hp
        | some project =>
          simp only [handleBlockAction, hsel, hreg, if_neg] at hp
          have hp2 : p ∈ processActions cfg (selectedProject action) project
              action.Channel.ID action.Message.TS ok action.Actions 0 := by
            simpa [hsel] using hp
          obtain ⟨c, hc⟩ := mem_processActions hp2
          subst hc
          exact ⟨rfl, rfl, rfl, selectedProject action, project, hreg, rfl, by simp [mapGet]⟩

/-- C9 witness: the invariant at the request dispatched for the
whitespace-wrapped my-project slash command. -/
theorem C9_dispatch_invariant_witness :
    PoppitInvariant cfgW
      { Repo := "my-project",
        Branch := DefaultGitBranch,
        type := "slack-compose",
        Dir := "/srv/my-project",
        Commands := ["docker compose ps"],
        Metadata := [("project", JsonValue.str "my-project")] } :=
  (C9_dispatch_invariant cfgW true (some cmdKnownW) none (Except.error ())
    (fun _ => true) none).1 _ (by decide)

/-- C10: a project metadata value that is present but not a string, or the
empty string, acts like an absent one: the reaction path makes zero appends
to either queue, and the execution-result path still appends exactly one
chat-output message whose event payload has no project key. -/
theorem C10_nonstring_project (cfg : Config) (sendOk : Bool)
    (reaction : SlackReaction) (message : SlackMessage) (v : JsonValue)
    (out : PoppitCommandOutput) (md : MetaMap)
    (hv : (∀ s, v ≠ JsonValue.str s) ∨ v = JsonValue.str "") :
    (mapGet message.Metadata.EventPayload "project" = some v →
      handleReaction cfg sendOk (some reaction) (Except.ok message) = Effects.empty) ∧
    (out.type = "slack-compose" → out.Metadata = some md → mapGet md "project" = some v →
      (handlePoppitOutput cfg true (some out)).poppit = [] ∧
      (handlePoppitOutput cfg true (some out)).slackLiner = [poppitOutputPayload cfg out] ∧
      mapGet (poppitOutputPayload cfg out).Metadata.EventPayload "project" = none) := by
  constructor
  · intro hproj
    cases hemoji : mapGet emojiToCommand reaction.Event.Reaction with
    | none => simp [handleReaction, getCommandForEmoji, hemoji]
    | some baseCmd =>
      by_cases htype : message.Metadata.EventType = "slack-compose"
      · rcases hv with hns | hemp
        · cases v with
          | str s => exact absurd rfl (hns s)
          | num n => simp [handleReaction, getCommandForEmoji, hemoji, htype, hproj]
          | boolean b => simp [handleReaction, getCommandForEmoji, hemoji, htype, hproj]
          | null => simp [handleReaction, getCommandForEmoji, hemoji, htype, hproj]
        · subst hemp
          simp [handleReaction, getCommandForEmoji, hemoji, htype, hproj]
      · simp [handleReaction, getCommandForEmoji, hemoji, htype]
  · intro htype hmd hget
    have hp : metaString out.Metadata "project" = "" := by
      rw [hmd]
      exact metaString_nonstring hget hv
    refine ⟨?_, ?_, ?_⟩ <;>
      simp [handlePoppitOutput, htype, poppitOutputPayload, hp, mapGet]

/-- C10 witness: a numeric project value in the reaction message metadata and
in an execution-result metadata. -/
theorem C10_nonstring_project_witness :
    handleReaction cfgW true (some reactionW) (Except.ok messageNumW) = Effects.empty ∧
    ((handlePoppitOutput cfgW true (some outNumProjW)).poppit = [] ∧
     (handlePoppitOutput cfgW true (some outNumProjW)).slackLiner =
       [poppitOutputPayload cfgW outNumProjW] ∧
     mapGet (poppitOutputPayload cfgW outNumProjW).Metadata.EventPayload "project" = none) := by
  have h := C10_nonstring_project cfgW true reactionW messageNumW (JsonValue.num 7)
    outNumProjW mdNumProjW (Or.inl (fun s hh => by cases hh))
  exact ⟨h.1 (by decide), h.2 rfl rfl (by decide)⟩

end SlackCompose
